import Mathlib

/-!
Shallow embedding of the finShield transaction risk-scoring engine
(server/ml/models.ts and server/ml/enhanced-models.ts).

Conventions:
* JavaScript doubles are idealized as exact rationals (`ℚ`); the places where
  JS produces `NaN`/`Infinity` (division by zero, absent-history sentinels)
  are modelled explicitly with the `JSNumber` type.
* Timestamps are milliseconds since the Unix epoch as `ℕ`; `getHours` etc.
  are the UTC calendar functions (the code uses the process-local timezone,
  which is a fixed offset; all claims are timezone-independent because the
  same hour function is used consistently on both sides of every comparison).
* The TensorFlow / ml-random-forest library calls are outside the repository;
  they are modelled as an explicit `MLLib` parameter holding the fitted-model
  constructors, so the embedded code is executable once a concrete library
  is supplied.
* Thrown JS exceptions are modelled with `Except EngineError`.
-/

namespace FinShield

/-- A JavaScript number: either a finite value (idealized as a rational),
`NaN`, or a signed infinity. -/
inductive JSNumber where
  | num (q : ℚ)
  | nan
  | inf
  | negInf
deriving DecidableEq, Repr

/-- JS division `a / b` on finite operands: finite quotient when `b ≠ 0`,
`NaN` for `0 / 0`, and a signed infinity for `a / 0` with `a ≠ 0`. -/
def jsDiv (a b : ℚ) : JSNumber :=
  if b ≠ 0 then .num (a / b)
  else if a = 0 then .nan
  else if 0 < a then .inf
  else .negInf

/-- JS `a || b` on finite numbers: `b` when `a` is falsy (zero), else `a`. -/
def jsOr (a b : ℚ) : ℚ := if a = 0 then b else a

/-- `Math.round` on a finite value: round half toward positive infinity. -/
def jsRoundQ (q : ℚ) : ℤ := ⌊q + 1 / 2⌋

/-- Multiplication of a JS number by a finite constant. -/
def JSNumber.mulC : JSNumber → ℚ → JSNumber
  | .num q, c => .num (q * c)
  | .nan, _ => .nan
  | .inf, c => if 0 < c then .inf else if c < 0 then .negInf else .nan
  | .negInf, c => if 0 < c then .negInf else if c < 0 then .inf else .nan

/-- Addition of a finite constant to a JS number. -/
def JSNumber.addC : JSNumber → ℚ → JSNumber
  | .num q, c => .num (q + c)
  | .nan, _ => .nan
  | .inf, _ => .inf
  | .negInf, _ => .negInf

/-- `Math.round` lifted to JS numbers (`NaN` and infinities pass through). -/
def JSNumber.round : JSNumber → JSNumber
  | .num q => .num (jsRoundQ q)
  | x => x

/-- `Math.min(x, c)` for a finite constant `c`: `NaN` propagates. -/
def JSNumber.minC : JSNumber → ℚ → JSNumber
  | .num q, c => .num (min q c)
  | .nan, _ => .nan
  | .inf, c => .num c
  | .negInf, _ => .negInf

/-- JS comparison `x > c` for a finite constant `c`; false on `NaN`. -/
def JSNumber.gtC : JSNumber → ℚ → Bool
  | .num q, c => decide (c < q)
  | .nan, _ => false
  | .inf, _ => true
  | .negInf, _ => false

/-- JS comparison `a > x` of a finite value against a JS number;
false when `x` is `NaN` or `+Infinity`. -/
def jsGtNum (a : ℚ) : JSNumber → Bool
  | .num q => decide (q < a)
  | .nan => false
  | .inf => false
  | .negInf => true

/-- `new Date(ms).getHours()` (UTC). -/
def getHours (ms : ℕ) : ℕ := ms / 3600000 % 24

/-- `new Date(ms).getMinutes()`. -/
def getMinutes (ms : ℕ) : ℕ := ms / 60000 % 60

/-- `new Date(ms).getDay()` — day of week, 0 = Sunday (the epoch day was a
Thursday, day 4). -/
def getDay (ms : ℕ) : ℕ := (ms / 86400000 + 4) % 7

/-- Civil date from a day count since the epoch (standard era-based
algorithm): returns `(year, month 1..12, day of month 1..31)`. -/
def civilFromDays (z : ℕ) : ℕ × ℕ × ℕ :=
  let z' := z + 719468
  let era := z' / 146097
  let doe := z' % 146097
  let yoe := (doe - doe / 1460 + doe / 36524 - doe / 146096) / 365
  let doy := doe - (365 * yoe + yoe / 4 - yoe / 100)
  let mp := (5 * doy + 2) / 153
  let d := doy - (153 * mp + 2) / 5 + 1
  let m := if mp < 10 then mp + 3 else mp - 9
  (yoe + era * 400 + (if m ≤ 2 then 1 else 0), m, d)

/-- `new Date(ms).getDate()` — day of month. -/
def getDate (ms : ℕ) : ℕ := (civilFromDays (ms / 86400000)).2.2

/-- `new Date(ms).getMonth()` — month, 0-based as in JS. -/
def getMonth (ms : ℕ) : ℕ := (civilFromDays (ms / 86400000)).2.1 - 1

/-- A transaction, restricted to the fields the risk engine reads
(`shared/schema.ts`): `amount` is the signed decimal amount,
`transactionDate` is the timestamp in milliseconds. -/
structure Transaction where
  id : ℕ
  accountId : ℕ
  amount : ℚ
  merchant : String
  category : String
  transactionDate : ℕ
  isFlagged : Bool
deriving DecidableEq, Repr

/-- `Math.abs(parseFloat(t.amount.toString()))`. -/
def absAmount (t : Transaction) : ℚ := |t.amount|

/-- The feature record returned by `extractTransactionFeatures`. -/
structure TransactionFeatures where
  hour : ℕ
  isWeekend : ℕ
  amount : ℚ
  amountVsMerchantAvg : JSNumber
  amountVsCategoryAvg : JSNumber
  transactionVelocity24h : ℕ
  totalAmount24h : ℚ
  merchantFrequency : JSNumber
  categoryFrequency : JSNumber
deriving DecidableEq, Repr

/-- `l.reduce((sum, t) => sum + Math.abs(parseFloat(t.amount)), 0) / l.length`
guarded by `l.length > 0`, else `0` — the merchant/category average pattern. -/
def listAvgAmount (l : List Transaction) : ℚ :=
  if l.length > 0 then (l.map absAmount).sum / l.length else 0

/-- `extractTransactionFeatures` from `server/ml/models.ts`. -/
def extractTransactionFeatures (transaction : Transaction)
    (historicalTransactions : List Transaction) : TransactionFeatures :=
  let hour := getHours transaction.transactionDate
  let dayOfWeek := getDay transaction.transactionDate
  let amount := absAmount transaction
  let merchantTransactions :=
    historicalTransactions.filter (fun t => t.merchant = transaction.merchant)
  let merchantAvgAmount := listAvgAmount merchantTransactions
  let categoryTransactions :=
    historicalTransactions.filter (fun t => t.category = transaction.category)
  let categoryAvgAmount := listAvgAmount categoryTransactions
  let last24Hours := historicalTransactions.filter (fun t =>
    (transaction.transactionDate : ℤ) - t.transactionDate ≤ 24 * 60 * 60 * 1000)
  { hour := hour
    isWeekend := if dayOfWeek = 0 ∨ dayOfWeek = 6 then 1 else 0
    amount := amount
    amountVsMerchantAvg := jsDiv amount (jsOr merchantAvgAmount amount)
    amountVsCategoryAvg := jsDiv amount (jsOr categoryAvgAmount amount)
    transactionVelocity24h := last24Hours.length
    totalAmount24h := (last24Hours.map absAmount).sum
    merchantFrequency := jsDiv merchantTransactions.length historicalTransactions.length
    categoryFrequency := jsDiv categoryTransactions.length historicalTransactions.length }

/-- Per-window velocity statistics built by the `timeWindows.reduce` loop of
`extractEnhancedFeatures` (`transactions_Nh`, `amount_Nh`,
`unique_merchants_Nh`, `unique_categories_Nh`). -/
structure WindowStats where
  count : ℕ
  totalAmount : ℚ
  uniqueMerchants : ℕ
  uniqueCategories : ℕ
deriving DecidableEq, Repr

/-- The feature record returned by `extractEnhancedFeatures`
(`server/ml/enhanced-models.ts`). The dynamically-keyed velocity features are
held as a list indexed by the `timeWindows` array; the `hour` field spread
after `baseFeatures` overwrites the base `hour` with the same value. -/
structure EnhancedFeatures where
  base : TransactionFeatures
  velocity : List WindowStats
  hour : ℕ
  minute : ℕ
  dayOfWeek : ℕ
  dayOfMonth : ℕ
  month : ℕ
  lastMerchantTransaction : JSNumber
  lastCategoryTransaction : JSNumber
  merchantTransactionCount : ℕ
  categoryTransactionCount : ℕ
  amountZScore : ℚ
  isRoundAmount : Bool
  hasPreviousFraud : Bool
deriving DecidableEq, Repr

/-- The library boundary: the fitted models produced by the external ML
packages (`@tensorflow/tfjs-node` autoencoder, `ml-random-forest`) and JS
`Math.sqrt`, which are not part of this repository. A fitted model is its
prediction function; the repository code is embedded relative to an
arbitrary such library. -/
structure MLLib where
  msqrt : ℚ → ℚ
  fitAutoencoder : List TransactionFeatures → (TransactionFeatures → ℚ)
  fitForest : List EnhancedFeatures → List Bool → (EnhancedFeatures → Bool)

/-- The `timeWindows` array of `extractEnhancedFeatures` (hours). -/
def timeWindows : List ℕ := [1, 3, 6, 12, 24, 72]

/-- One iteration of the velocity-features `reduce` loop. -/
def windowStatsFor (transaction : Transaction)
    (historicalTransactions : List Transaction) (hours : ℕ) : WindowStats :=
  let windowTransactions := historicalTransactions.filter (fun t =>
    (transaction.transactionDate : ℤ) - t.transactionDate ≤ hours * 60 * 60 * 1000)
  { count := windowTransactions.length
    totalAmount := (windowTransactions.map absAmount).sum
    uniqueMerchants := (windowTransactions.map (·.merchant)).dedup.length
    uniqueCategories := (windowTransactions.map (·.category)).dedup.length }

/-- JS `%` (truncated remainder) restricted to the nonnegative operands it is
applied to in `isRoundAmount`. -/
def jsModQ (a b : ℚ) : ℚ := a - b * ⌊a / b⌋

/-- `extractEnhancedFeatures` from `server/ml/enhanced-models.ts`. -/
def extractEnhancedFeatures (lib : MLLib) (transaction : Transaction)
    (historicalTransactions : List Transaction) : EnhancedFeatures :=
  let baseFeatures := extractTransactionFeatures transaction historicalTransactions
  let ms := transaction.transactionDate
  let merchantStats :=
    historicalTransactions.filter (fun t => t.merchant = transaction.merchant)
  let lastMerchantTransaction :=
    match merchantStats.getLast? with
    | some m => JSNumber.num (|(ms : ℚ) - m.transactionDate| / (1000 * 60 * 60))
    | none => JSNumber.inf
  let categoryStats :=
    historicalTransactions.filter (fun t => t.category = transaction.category)
  let lastCategoryTransaction :=
    match categoryStats.getLast? with
    | some m => JSNumber.num (|(ms : ℚ) - m.transactionDate| / (1000 * 60 * 60))
    | none => JSNumber.inf
  let amount := absAmount transaction
  let recentAmounts :=
    (historicalTransactions.drop (historicalTransactions.length - 10)).map absAmount
  let avgRecentAmount :=
    if recentAmounts.length > 0 then recentAmounts.sum / recentAmounts.length
    else amount
  let stdRecentAmount :=
    if recentAmounts.length > 0 then
      lib.msqrt ((recentAmounts.map (fun v => (v - avgRecentAmount) ^ 2)).sum /
        recentAmounts.length)
    else 0
  { base := baseFeatures
    velocity := timeWindows.map (windowStatsFor transaction historicalTransactions)
    hour := getHours ms
    minute := getMinutes ms
    dayOfWeek := getDay ms
    dayOfMonth := getDate ms
    month := getMonth ms
    lastMerchantTransaction := lastMerchantTransaction
    lastCategoryTransaction := lastCategoryTransaction
    merchantTransactionCount := merchantStats.length
    categoryTransactionCount := categoryStats.length
    amountZScore :=
      if stdRecentAmount ≠ 0 then (amount - avgRecentAmount) / stdRecentAmount else 0
    isRoundAmount :=
      decide (jsModQ amount 1 = 0 ∨ jsModQ amount 5 = 0 ∨ jsModQ amount 10 = 0)
    hasPreviousFraud := historicalTransactions.any (·.isFlagged) }

/-- The thrown JS exceptions relevant to the engine. `modelNotTrained` is
`new Error('Model not trained')`; `typeErrorUndefined` is the runtime
`TypeError` raised by reading a property of `undefined` (indexing the first
row of an empty feature matrix). `degenerateTrainingSet` is modelled from the
spec: the spec's error taxonomy names a `DegenerateTrainingSetError` for
training on zero transactions or a zero-variance feature matrix, but the
repository never defines or throws such an error; the constructor exists so
that statements about it can be made. -/
inductive EngineError where
  | modelNotTrained
  | typeErrorUndefined
  | degenerateTrainingSet
deriving DecidableEq, Repr

/-- The strictly-earlier slice of the training set used for each training
transaction's own feature extraction. -/
def trainHistory (transactions : List Transaction) (t : Transaction) :
    List Transaction :=
  transactions.filter (fun ht => ht.transactionDate < t.transactionDate)

/-- `AnomalyDetector` (autoencoder variant, `server/ml/models.ts`): the
fitted model is its reconstruction-error function; `threshold` starts at
`0.5` and is replaced by training. -/
structure AnomalyDetector where
  model : Option (TransactionFeatures → ℚ)
  threshold : ℚ

/-- A freshly constructed `AnomalyDetector`. -/
def AnomalyDetector.init : AnomalyDetector := ⟨none, 1 / 2⟩

/-- `AnomalyDetector.train`: extracts features (each training transaction
against its strictly-earlier history), fits the autoencoder, and sets the
threshold to the descending-sorted training reconstruction errors at index
`Math.floor(n * 0.1)`. On an empty list, `featureMatrix[0].length` reads a
property of `undefined` and the call fails with a runtime `TypeError`. -/
def AnomalyDetector.train (lib : MLLib) (_d : AnomalyDetector)
    (transactions : List Transaction) : Except EngineError AnomalyDetector :=
  let features := transactions.map (fun t =>
    extractTransactionFeatures t (trainHistory transactions t))
  match features with
  | [] => .error .typeErrorUndefined
  | _ :: _ =>
    let errFn := lib.fitAutoencoder features
    let errorData := features.map errFn
    let sorted := List.insertionSort (fun a b => b ≤ a) errorData
    let threshold := sorted.getD (errorData.length / 10) 0
    .ok ⟨some errFn, threshold⟩

/-- The record returned by `detectAnomaly`. -/
structure AnomalyResult where
  score : JSNumber
  isAnomaly : Bool
  features : TransactionFeatures
deriving DecidableEq, Repr

/-- `AnomalyDetector.detectAnomaly`: throws when untrained, otherwise scores
`Math.min(Math.round((errorValue / threshold) * 100), 100)` and classifies
`isAnomaly = score > 70`. -/
def AnomalyDetector.detectAnomaly (d : AnomalyDetector)
    (transaction : Transaction) (historicalTransactions : List Transaction) :
    Except EngineError AnomalyResult :=
  match d.model with
  | none => .error .modelNotTrained
  | some errFn =>
    let features := extractTransactionFeatures transaction historicalTransactions
    let errorValue := errFn features
    let score := (((jsDiv errorValue d.threshold).mulC 100).round).minC 100
    .ok { score := score, isAnomaly := score.gtC 70, features := features }

/-- `AnomalyDetector` (isolation-forest variant, second copy of
`server/ml/models.ts`): only the prediction path is embedded; the fitted
model returns the library's `-1` (anomaly) / `1` (normal) prediction. -/
structure AnomalyDetectorIF where
  model : Option (TransactionFeatures → ℚ)

/-- `detectAnomaly` of the isolation-forest variant: throws the same
`Model not trained` error when untrained, otherwise maps the prediction `p`
to `Math.round(((1 - p) / 2) * 100)`. -/
def AnomalyDetectorIF.detectAnomaly (d : AnomalyDetectorIF)
    (transaction : Transaction) (historicalTransactions : List Transaction) :
    Except EngineError AnomalyResult :=
  match d.model with
  | none => .error .modelNotTrained
  | some predictFn =>
    let features := extractTransactionFeatures transaction historicalTransactions
    let prediction := predictFn features
    let score := jsRoundQ ((1 - prediction) / 2 * 100)
    .ok { score := .num score, isAnomaly := decide ((70 : ℚ) < score),
          features := features }

/-- A behavioral profile; the `Set`s are modelled as the lists they are built
from (only membership is ever queried). -/
structure BehavioralProfile where
  typicalDayHours : List ℕ
  typicalMerchants : List String
  typicalCategories : List String
  averageAmount : JSNumber
  transactionFrequency : JSNumber
deriving DecidableEq, Repr

/-- The profile built by `BehavioralProfiler.updateProfile` for a given
transaction list. On an empty list `averageAmount` is `0 / 0 = NaN`, and the
`daysDiff` computed from `transactions[-1]` is `NaN`, so `NaN || 1` makes the
frequency denominator `1`. -/
def buildProfile (transactions : List Transaction) : BehavioralProfile :=
  let totalAmount := (transactions.map absAmount).sum
  { typicalDayHours := transactions.map (fun t => getHours t.transactionDate)
    typicalMerchants := transactions.map (·.merchant)
    typicalCategories := transactions.map (·.category)
    averageAmount := jsDiv totalAmount transactions.length
    transactionFrequency :=
      match transactions.head?, transactions.getLast? with
      | some first, some last =>
        jsDiv transactions.length
          (jsOr (((last.transactionDate : ℚ) - first.transactionDate) /
            (1000 * 60 * 60 * 24)) 1)
      | _, _ => jsDiv transactions.length 1 }

/-- `BehavioralProfiler.updateProfile`: recomputes the holder's profile from
the given list and replaces any existing entry in the `userProfiles` map. -/
def updateProfile (profiles : ℕ → Option BehavioralProfile) (userId : ℕ)
    (transactions : List Transaction) : ℕ → Option BehavioralProfile :=
  fun u => if u = userId then some (buildProfile transactions) else profiles u

/-- The first three additive penalties of
`BehavioralProfiler.analyzeTransaction` (unfamiliar hour `+20`, new merchant
`+15`, new category `+10`), accumulated in source order. -/
def behavioralBaseScore (p : BehavioralProfile) (t : Transaction) : ℕ :=
  (if getHours t.transactionDate ∈ p.typicalDayHours then 0 else 20) +
  (if t.merchant ∈ p.typicalMerchants then 0 else 15) +
  (if t.category ∈ p.typicalCategories then 0 else 10)

/-- The full accumulated `riskScore` of
`BehavioralProfiler.analyzeTransaction`: the three base penalties plus `+25`
when `amount > profile.averageAmount * 2`. -/
def behavioralRiskScore (p : BehavioralProfile) (t : Transaction) : ℕ :=
  behavioralBaseScore p t +
    (if jsGtNum (absAmount t) (p.averageAmount.mulC 2) then 25 else 0)

/-- `BehavioralProfiler.analyzeTransaction`: `0` when the holder has no
profile, otherwise `Math.min(riskScore, 100)`. -/
def BehavioralProfiler.analyzeTransaction
    (profiles : ℕ → Option BehavioralProfile) (userId : ℕ)
    (transaction : Transaction) : ℕ :=
  match profiles userId with
  | none => 0
  | some p => min (behavioralRiskScore p transaction) 100

/-- `RandomForestClassifier` (`server/ml/enhanced-models.ts`, the
`ml-random-forest` variant): the fitted model is its boolean prediction
function. -/
structure RandomForestClassifier where
  model : Option (EnhancedFeatures → Bool)
  userId : ℕ

/-- `RandomForestClassifier.train`: an empty transaction list is an early
`return` (no-op); otherwise features are extracted against each
transaction's strictly-earlier slice and the forest is fitted. -/
def RandomForestClassifier.train (lib : MLLib) (c : RandomForestClassifier)
    (transactions : List Transaction) (labels : List Bool) :
    RandomForestClassifier :=
  if transactions.length = 0 then c
  else
    let features := transactions.map (fun t =>
      extractEnhancedFeatures lib t (trainHistory transactions t))
    { c with model := some (lib.fitForest features labels) }

/-- `RandomForestClassifier.predict`: `0` when no model exists, otherwise the
boolean prediction converted to a percentage (`100` or `0`). -/
def RandomForestClassifier.predict (lib : MLLib) (c : RandomForestClassifier)
    (transaction : Transaction) (historicalTransactions : List Transaction) :
    ℕ :=
  match c.model with
  | none => 0
  | some m =>
    if m (extractEnhancedFeatures lib transaction historicalTransactions)
    then 100 else 0

/-- `RandomForestClassifier.updateModel`: retrains from scratch on the
history plus the new labelled transaction. -/
def RandomForestClassifier.updateModel (lib : MLLib)
    (c : RandomForestClassifier) (transaction : Transaction)
    (isActuallyFraud : Bool) (historicalTransactions : List Transaction) :
    RandomForestClassifier :=
  c.train lib (historicalTransactions ++ [transaction])
    (historicalTransactions.map (·.isFlagged) ++ [isActuallyFraud])

/-- The `FraudDetectionService` state: the one global anomaly detector, the
`userProfiles` map of the behavioral profiler, and the `userClassifiers`
map. -/
structure FraudDetectionService where
  anomalyDetector : AnomalyDetector
  profiles : ℕ → Option BehavioralProfile
  userClassifiers : ℕ → Option RandomForestClassifier

/-- The record returned by `FraudDetectionService.analyzeTransaction`. -/
structure Assessment where
  suspiciousScore : JSNumber
  isAnomaly : Bool
  anomalyScore : JSNumber
  behavioralScore : ℕ
  classifierScore : ℕ
  features : TransactionFeatures
deriving DecidableEq, Repr

/-- The fusion formula as the spec states it:
`round(0.4 * anomalyScore + 0.3 * behavioralScore + 0.3 * classifierScore)`.
`FraudDetectionService.analyzeTransaction` is proved to compute exactly this
on its three component scores. -/
def fuse (a b c : ℚ) : ℤ :=
  jsRoundQ (a * (2 / 5) + (b * (3 / 10) + c * (3 / 10)))

/-- `FraudDetectionService.analyzeTransaction`: runs the three scorers
(lazily creating and training the holder's classifier when absent, which
mutates the service state), then fuses with weights `0.4/0.3/0.3` and
decision threshold `> 70`. Returns the assessment together with the
(possibly updated) service state. -/
def FraudDetectionService.analyzeTransaction (lib : MLLib)
    (s : FraudDetectionService) (transaction : Transaction) (userId : ℕ)
    (historicalTransactions : List Transaction) :
    Except EngineError (Assessment × FraudDetectionService) :=
  match s.anomalyDetector.detectAnomaly transaction historicalTransactions with
  | .error e => .error e
  | .ok anomalyResult =>
    let behavioralScore :=
      BehavioralProfiler.analyzeTransaction s.profiles userId transaction
    let scoreAndState : ℕ × FraudDetectionService :=
      match s.userClassifiers userId with
      | some c => (c.predict lib transaction historicalTransactions, s)
      | none =>
        let classifier := RandomForestClassifier.train lib ⟨none, userId⟩
          historicalTransactions (historicalTransactions.map (·.isFlagged))
        (classifier.predict lib transaction historicalTransactions,
          { s with userClassifiers := fun u =>
              if u = userId then some classifier else s.userClassifiers u })
    let classifierScore := scoreAndState.1
    let combinedScore := ((anomalyResult.score.mulC (2 / 5)).addC
      ((behavioralScore : ℚ) * (3 / 10) + (classifierScore : ℚ) * (3 / 10))).round
    .ok ({ suspiciousScore := combinedScore
           isAnomaly := combinedScore.gtC 70
           anomalyScore := anomalyResult.score
           behavioralScore := behavioralScore
           classifierScore := classifierScore
           features := anomalyResult.features }, scoreAndState.2)

/-- `FraudDetectionService.updateModels`: rebuilds the holder's behavioral
profile from the history plus the new transaction and, only when a
classifier already exists for the holder, retrains it via `updateModel`.
The global anomaly detector is untouched. -/
def FraudDetectionService.updateModels (lib : MLLib)
    (s : FraudDetectionService) (transaction : Transaction) (userId : ℕ)
    (isActuallyFraud : Bool) (historicalTransactions : List Transaction) :
    FraudDetectionService :=
  let profiles' :=
    updateProfile s.profiles userId (historicalTransactions ++ [transaction])
  match s.userClassifiers userId with
  | some c =>
    { s with profiles := profiles'
             userClassifiers := fun u =>
               if u = userId then
                 some (c.updateModel lib transaction isActuallyFraud
                   historicalTransactions)
               else s.userClassifiers u }
  | none => { s with profiles := profiles' }

/-! Concrete instances used by witnesses and counterexamples. -/

/-- A concrete library instance: a perfectly reconstructing autoencoder
(reconstruction error `0` everywhere) and a forest that always predicts
"not fraud" — the fit of an all-unflagged training set. -/
def constLib : MLLib :=
  { msqrt := fun _ => 0
    fitAutoencoder := fun _ => fun _ => 0
    fitForest := fun _ _ => fun _ => false }

/-- One of the ten prior grocery transactions of the end-to-end scenario:
$50 at the same grocery merchant, at noon of successive days, unflagged. -/
def groceryTx (i : ℕ) : Transaction :=
  { id := i, accountId := 1, amount := 50, merchant := "GroceryMart"
    category := "Groceries", transactionDate := 43200000 + 86400000 * i
    isFlagged := false }

/-- The scenario history: ten prior grocery transactions averaging $50. -/
def history10 : List Transaction := (List.range 10).map groceryTx

/-- The scenario's new transaction: $450 at a never-seen merchant in the
never-seen category "Technology" at 3am, an hour never seen for the holder. -/
def techTx : Transaction :=
  { id := 100, accountId := 1, amount := 450, merchant := "TechStore"
    category := "Technology", transactionDate := 86400000 * 20 + 10800000
    isFlagged := false }

/-- A small transaction used for cold-start and boundary witnesses. -/
def smallTx : Transaction :=
  { id := 7, accountId := 1, amount := 100, merchant := "GroceryMart"
    category := "Groceries", transactionDate := 43200000
    isFlagged := false }

/-- A transaction with amount exactly `2.01` times the scenario average. -/
def boundaryTx : Transaction :=
  { id := 8, accountId := 1, amount := 201 / 2, merchant := "GroceryMart"
    category := "Groceries", transactionDate := 43200000
    isFlagged := false }

/-- A zero-amount transaction (e.g. a card-verification hold). -/
def zeroTx : Transaction :=
  { id := 9, accountId := 1, amount := 0, merchant := "M"
    category := "C", transactionDate := 0, isFlagged := false }

/-- The scenario service state: the detector trained to a perfectly
reconstructing model with threshold `1`, the holder's profile built from the
ten grocery transactions, and no classifier yet for any holder. -/
def scenarioService : FraudDetectionService :=
  { anomalyDetector := ⟨some (fun _ => 0), 1⟩
    profiles := fun u => if u = 1 then some (buildProfile history10) else none
    userClassifiers := fun _ => none }

/-! Helper lemmas shared between the claim theorems. -/

/-- `Math.round` of a nonnegative value is nonnegative. -/
lemma jsRoundQ_nonneg {q : ℚ} (h : 0 ≤ q) : 0 ≤ jsRoundQ q := by
  unfold jsRoundQ
  exact Int.le_floor.mpr (by push_cast; linarith)

/-- `Math.round` of a value at most `100` is at most `100`. -/
lemma jsRoundQ_le_100 {q : ℚ} (h : q ≤ 100) : jsRoundQ q ≤ 100 := by
  unfold jsRoundQ
  have h2 : (q + 1 / 2 : ℚ) < ((101 : ℤ) : ℚ) := by push_cast; linarith
  have := Int.floor_lt.mpr h2
  omega

/-- Evaluation of `detectAnomaly` on a trained detector with nonzero
threshold: the score is the finite integer
`min (round (err / threshold * 100)) 100`. -/
lemma detectAnomaly_trained (d : AnomalyDetector)
    (errFn : TransactionFeatures → ℚ) (t : Transaction)
    (hist : List Transaction) (hm : d.model = some errFn)
    (hthr : d.threshold ≠ 0) :
    d.detectAnomaly t hist = .ok
      { score := .num ((min (jsRoundQ
          (errFn (extractTransactionFeatures t hist) / d.threshold * 100)) 100 : ℤ) : ℚ)
        isAnomaly := decide ((70 : ℤ) < min (jsRoundQ
          (errFn (extractTransactionFeatures t hist) / d.threshold * 100)) 100)
        features := extractTransactionFeatures t hist } := by
  obtain ⟨m, thr⟩ := d
  simp only at hm hthr
  subst hm
  simp only [AnomalyDetector.detectAnomaly, jsDiv, hthr, ne_eq,
    not_false_eq_true, if_true, JSNumber.mulC, JSNumber.round,
    JSNumber.minC, JSNumber.gtC]
  generalize jsRoundQ (errFn (extractTransactionFeatures t hist) / thr * 100) = k
  have hcast : ((min k 100 : ℤ) : ℚ) = min (k : ℚ) 100 := by push_cast; rfl
  have hdec : decide ((70 : ℚ) < min (k : ℚ) 100) =
      decide ((70 : ℤ) < min k 100) := by
    rw [decide_eq_decide]
    exact_mod_cast Iff.rfl
  rw [hcast, hdec]

/-- The behavioral risk score never exceeds `70`. -/
lemma behavioralRiskScore_le (p : BehavioralProfile) (t : Transaction) :
    behavioralRiskScore p t ≤ 70 := by
  unfold behavioralRiskScore behavioralBaseScore
  split_ifs <;> omega

/-- The behavioral component score is never above `100`. -/
lemma behavioral_le_100 (profiles : ℕ → Option BehavioralProfile) (uid : ℕ)
    (t : Transaction) :
    BehavioralProfiler.analyzeTransaction profiles uid t ≤ 100 := by
  unfold BehavioralProfiler.analyzeTransaction
  cases profiles uid with
  | none => exact Nat.zero_le 100
  | some p => exact min_le_right _ _

/-- A classifier prediction is always `0` or `100`. -/
lemma predict_cases (lib : MLLib) (c : RandomForestClassifier)
    (t : Transaction) (hist : List Transaction) :
    c.predict lib t hist = 0 ∨ c.predict lib t hist = 100 := by
  cases hm : c.model with
  | none => exact Or.inl (by simp [RandomForestClassifier.predict, hm])
  | some m =>
    simp only [RandomForestClassifier.predict, hm]
    split_ifs <;> simp

/-- Bounds on the fusion formula: component scores in `[0, 100]` fuse to a
score in `[0, 100]`. -/
lemma fuse_bounds {a b c : ℚ} (ha0 : 0 ≤ a) (ha : a ≤ 100) (hb0 : 0 ≤ b)
    (hb : b ≤ 100) (hc0 : 0 ≤ c) (hc : c ≤ 100) :
    0 ≤ fuse a b c ∧ fuse a b c ≤ 100 := by
  unfold fuse
  constructor
  · apply jsRoundQ_nonneg
    nlinarith
  · apply jsRoundQ_le_100
    nlinarith

/-- Evaluation of the service `analyzeTransaction` when the detector is
trained with a nonzero threshold: the call succeeds, every component score
is reported back unchanged, and the fused score is `fuse` of the three
components. -/
lemma analyzeTransaction_ok (lib : MLLib) (s : FraudDetectionService)
    (t : Transaction) (uid : ℕ) (hist : List Transaction)
    (errFn : TransactionFeatures → ℚ)
    (hm : s.anomalyDetector.model = some errFn)
    (hthr : s.anomalyDetector.threshold ≠ 0) :
    ∃ (r : Assessment) (s' : FraudDetectionService) (a : ℤ),
      s.analyzeTransaction lib t uid hist = .ok (r, s') ∧
      a = min (jsRoundQ (errFn (extractTransactionFeatures t hist) /
        s.anomalyDetector.threshold * 100)) 100 ∧
      r.anomalyScore = .num (a : ℚ) ∧
      r.behavioralScore =
        BehavioralProfiler.analyzeTransaction s.profiles uid t ∧
      (r.classifierScore = 0 ∨ r.classifierScore = 100) ∧
      r.suspiciousScore =
        .num ((fuse (a : ℚ) (r.behavioralScore : ℚ) (r.classifierScore : ℚ) : ℤ) : ℚ) ∧
      r.isAnomaly = decide ((70 : ℤ) <
        fuse (a : ℚ) (r.behavioralScore : ℚ) (r.classifierScore : ℚ)) := by
  have hdet := detectAnomaly_trained s.anomalyDetector errFn t hist hm hthr
  set k : ℤ := min (jsRoundQ (errFn (extractTransactionFeatures t hist) /
    s.anomalyDetector.threshold * 100)) 100 with hk
  simp only [FraudDetectionService.analyzeTransaction]
  rw [hdet]
  cases hcl : s.userClassifiers uid with
  | some c =>
    simp only [hcl]
    refine ⟨_, _, k, rfl, rfl, rfl, rfl, predict_cases lib c t hist, ?_, ?_⟩
    · simp only [JSNumber.mulC, JSNumber.addC, JSNumber.round, fuse]
    · simp only [JSNumber.mulC, JSNumber.addC, JSNumber.round, JSNumber.gtC,
        fuse]
      rw [decide_eq_decide]
      constructor
      · intro h
        exact_mod_cast h
      · intro h
        exact_mod_cast h
  | none =>
    simp only [hcl]
    refine ⟨_, _, k, rfl, rfl, rfl, rfl, predict_cases lib _ t hist, ?_, ?_⟩
    · simp only [JSNumber.mulC, JSNumber.addC, JSNumber.round, fuse]
    · simp only [JSNumber.mulC, JSNumber.addC, JSNumber.round, JSNumber.gtC,
        fuse]
      rw [decide_eq_decide]
      constructor
      · intro h
        exact_mod_cast h
      · intro h
        exact_mod_cast h

/-! Additional small helpers for the feature-ratio claim. -/

/-- JS division with a nonzero denominator is the finite quotient. -/
lemma jsDiv_num (a b : ℚ) (hb : b ≠ 0) : jsDiv a b = .num (a / b) := by
  simp [jsDiv, hb]

/-- `0 || b = b`. -/
lemma jsOr_of_zero (b : ℚ) : jsOr 0 b = b := by simp [jsOr]

/-- `a || b = a` when `a` is nonzero. -/
lemma jsOr_of_ne (a b : ℚ) (h : a ≠ 0) : jsOr a b = a := by simp [jsOr, h]

/-- The `amount / (avg || amount)` pattern of the feature extractor: finite
whenever the amount is nonzero, and exactly `1.0` when the average is `0`
(in particular when there is no history at all). -/
lemma ratio_feature (amount avg : ℚ) (h : amount ≠ 0) :
    (∃ q, jsDiv amount (jsOr avg amount) = .num q) ∧
    (avg = 0 → jsDiv amount (jsOr avg amount) = .num 1) := by
  by_cases hz : avg = 0
  · subst hz
    rw [jsOr_of_zero, jsDiv_num amount amount h, div_self h]
    exact ⟨⟨1, rfl⟩, fun _ => rfl⟩
  · rw [jsOr_of_ne avg amount hz, jsDiv_num amount avg hz]
    exact ⟨⟨amount / avg, rfl⟩, fun h0 => absurd h0 hz⟩

/-- Evaluation rule for `Math.round`: `round q = z` once
`z ≤ q + 1/2 < z + 1`. -/
lemma jsRoundQ_eval (q : ℚ) (z : ℤ) (h1 : (z : ℚ) ≤ q + 1 / 2)
    (h2 : q + 1 / 2 < z + 1) : jsRoundQ q = z := by
  unfold jsRoundQ
  rw [Int.floor_eq_iff]
  exact ⟨h1, by exact_mod_cast h2⟩

/-! The claim theorems. -/

/-- Claim C1: `FraudDetectionService.analyzeTransaction` fuses the three
component scores as
`suspicion = round(0.4*anomalyScore + 0.3*behavioralScore + 0.3*classifierScore)`
and sets `isAnomaly` true exactly when the fused score is strictly greater
than 70; at component scores `80, 60, 40` the fused score is `62` (not an
anomaly since `62 ≤ 70`), and at `95, 90, 90` it is `92` (an anomaly). The
detector state is assumed trained with a nonzero threshold so that the call
succeeds with a finite anomaly score. -/
theorem c1_fusion :
    (∀ (lib : MLLib) (s : FraudDetectionService) (t : Transaction) (uid : ℕ)
       (hist : List Transaction) (errFn : TransactionFeatures → ℚ),
       s.anomalyDetector.model = some errFn →
       s.anomalyDetector.threshold ≠ 0 →
       ∃ (r : Assessment) (s' : FraudDetectionService) (a : ℤ),
         s.analyzeTransaction lib t uid hist = .ok (r, s') ∧
         r.anomalyScore = .num (a : ℚ) ∧
         r.suspiciousScore = .num ((fuse (a : ℚ) (r.behavioralScore : ℚ)
           (r.classifierScore : ℚ) : ℤ) : ℚ) ∧
         (r.isAnomaly = true ↔
           70 < fuse (a : ℚ) (r.behavioralScore : ℚ) (r.classifierScore : ℚ))) ∧
    fuse 80 60 40 = 62 ∧ fuse 95 90 90 = 92 := by
  refine ⟨?_, by unfold fuse; apply jsRoundQ_eval <;> norm_num,
    by unfold fuse; apply jsRoundQ_eval <;> norm_num⟩
  intro lib s t uid hist errFn hm hthr
  obtain ⟨r, s', a, hrun, _, hA, _, _, hS, hI⟩ :=
    analyzeTransaction_ok lib s t uid hist errFn hm hthr
  refine ⟨r, s', a, hrun, hA, hS, ?_⟩
  rw [hI]
  simp

/-- Witness for C1 at the concrete scenario state. -/
theorem c1_fusion_witness :
    ∃ (r : Assessment) (s' : FraudDetectionService) (a : ℤ),
      FraudDetectionService.analyzeTransaction constLib scenarioService techTx
        1 history10 = .ok (r, s') ∧
      r.anomalyScore = .num (a : ℚ) ∧
      r.suspiciousScore = .num ((fuse (a : ℚ) (r.behavioralScore : ℚ)
        (r.classifierScore : ℚ) : ℤ) : ℚ) ∧
      (r.isAnomaly = true ↔
        70 < fuse (a : ℚ) (r.behavioralScore : ℚ) (r.classifierScore : ℚ)) :=
  c1_fusion.1 constLib scenarioService techTx 1 history10 (fun _ => 0) rfl
    (by norm_num [scenarioService])

/-- Claim C2: on a trained detector (positive threshold, nonnegative
reconstruction error — an MSE), `detectAnomaly` returns an integer score in
`[0, 100]`; the behavioral component is an integer in `[0, 100]`; and the
fused `suspiciousScore` of the service is an integer in `[0, 100]`. -/
theorem c2_score_bounds :
    (∀ (d : AnomalyDetector) (errFn : TransactionFeatures → ℚ)
       (t : Transaction) (hist : List Transaction),
       d.model = some errFn → 0 < d.threshold →
       0 ≤ errFn (extractTransactionFeatures t hist) →
       ∃ (r : AnomalyResult) (k : ℤ),
         d.detectAnomaly t hist = .ok r ∧ r.score = .num (k : ℚ) ∧
         0 ≤ k ∧ k ≤ 100) ∧
    (∀ (profiles : ℕ → Option BehavioralProfile) (uid : ℕ) (t : Transaction),
       BehavioralProfiler.analyzeTransaction profiles uid t ≤ 100) ∧
    (∀ (lib : MLLib) (s : FraudDetectionService) (t : Transaction) (uid : ℕ)
       (hist : List Transaction) (errFn : TransactionFeatures → ℚ),
       s.anomalyDetector.model = some errFn →
       0 < s.anomalyDetector.threshold →
       0 ≤ errFn (extractTransactionFeatures t hist) →
       ∃ (r : Assessment) (s' : FraudDetectionService) (k : ℤ),
         s.analyzeTransaction lib t uid hist = .ok (r, s') ∧
         r.suspiciousScore = .num (k : ℚ) ∧ 0 ≤ k ∧ k ≤ 100) := by
  have hscore : ∀ (thr err : ℚ), 0 < thr → 0 ≤ err →
      0 ≤ min (jsRoundQ (err / thr * 100)) 100 ∧
      min (jsRoundQ (err / thr * 100)) 100 ≤ 100 := by
    intro thr err hthr herr
    constructor
    · refine le_min (jsRoundQ_nonneg ?_) (by norm_num)
      positivity
    · exact min_le_right _ _
  refine ⟨?_, behavioral_le_100, ?_⟩
  · intro d errFn t hist hm hthr herr
    have hdet := detectAnomaly_trained d errFn t hist hm (ne_of_gt hthr)
    refine ⟨_, min (jsRoundQ (errFn (extractTransactionFeatures t hist) /
      d.threshold * 100)) 100, hdet, rfl, hscore d.threshold _ hthr herr⟩
  · intro lib s t uid hist errFn hm hthr herr
    obtain ⟨r, s', a, hrun, hak, hA, hB, hC, hS, hI⟩ :=
      analyzeTransaction_ok lib s t uid hist errFn hm (ne_of_gt hthr)
    have ha := hscore s.anomalyDetector.threshold _ hthr herr
    rw [← hak] at ha
    have hb := behavioral_le_100 s.profiles uid t
    rw [← hB] at hb
    have hfuse : 0 ≤ fuse (a : ℚ) (r.behavioralScore : ℚ)
        (r.classifierScore : ℚ) ∧
        fuse (a : ℚ) (r.behavioralScore : ℚ) (r.classifierScore : ℚ) ≤ 100 := by
      apply fuse_bounds
      · exact_mod_cast ha.1
      · exact_mod_cast ha.2
      · positivity
      · exact_mod_cast hb
      · positivity
      · rcases hC with h | h <;> rw [h] <;> norm_num
    exact ⟨r, s', _, hrun, hS, hfuse.1, hfuse.2⟩

/-- Witness for C2 at concrete trained states. -/
theorem c2_score_bounds_witness :
    (∃ (r : AnomalyResult) (k : ℤ),
      (AnomalyDetector.mk (some (fun _ => 0)) 1).detectAnomaly smallTx [] =
        .ok r ∧ r.score = .num (k : ℚ) ∧ 0 ≤ k ∧ k ≤ 100) ∧
    BehavioralProfiler.analyzeTransaction (fun _ => none) 1 smallTx ≤ 100 ∧
    (∃ (r : Assessment) (s' : FraudDetectionService) (k : ℤ),
      FraudDetectionService.analyzeTransaction constLib scenarioService techTx
        1 history10 = .ok (r, s') ∧
      r.suspiciousScore = .num (k : ℚ) ∧ 0 ≤ k ∧ k ≤ 100) :=
  ⟨c2_score_bounds.1 (AnomalyDetector.mk (some (fun _ => 0)) 1) (fun _ => 0)
      smallTx [] rfl (by norm_num) (le_refl 0),
   c2_score_bounds.2.1 (fun _ => none) 1 smallTx,
   c2_score_bounds.2.2 constLib scenarioService techTx 1 history10
      (fun _ => 0) rfl (by norm_num [scenarioService]) (le_refl 0)⟩

/-- Counterexample to C3: in the exact end-to-end scenario (ten prior $50
grocery transactions, new $450 transaction at a never-seen merchant in the
never-seen category "Technology" at a never-seen hour), with a trained
detector whose reconstruction error is `0` and no classifier yet for the
holder, the behavioral score is `70` as claimed but the fused score is `21`
and `isAnomaly` is `false` — the fused score does not exceed 70. -/
theorem c3_counterexample :
    (FraudDetectionService.analyzeTransaction constLib scenarioService techTx
        1 history10).map
      (fun p => (p.1.behavioralScore, p.1.suspiciousScore, p.1.isAnomaly)) =
    .ok (70, .num 21, false) := by
  with_unfolding_all rfl

/-- Claim C3, amended: the scenario produces a behavioral score of exactly
`70` (the sum `20+15+10+25`), but the fused suspicion score is
`round(0.4*anomalyScore + 0.3*70 + 0.3*classifierScore)` and exceeds 70 —
yielding `isAnomaly = true` — only when the anomaly and classifier component
scores are high enough; with anomaly score `0` and classifier score `0` the
fused score is `21` and `isAnomaly = false`. -/
theorem c3_scenario :
    ∀ (lib : MLLib) (s : FraudDetectionService) (t : Transaction) (uid : ℕ)
      (hist : List Transaction) (p : BehavioralProfile)
      (errFn : TransactionFeatures → ℚ),
      s.profiles uid = some p →
      p.averageAmount = .num 50 →
      absAmount t = 450 →
      getHours t.transactionDate ∉ p.typicalDayHours →
      t.merchant ∉ p.typicalMerchants →
      t.category ∉ p.typicalCategories →
      s.anomalyDetector.model = some errFn →
      s.anomalyDetector.threshold ≠ 0 →
      ∃ (r : Assessment) (s' : FraudDetectionService) (a : ℤ),
        s.analyzeTransaction lib t uid hist = .ok (r, s') ∧
        r.behavioralScore = 70 ∧
        r.anomalyScore = .num (a : ℚ) ∧
        r.suspiciousScore =
          .num ((fuse (a : ℚ) 70 (r.classifierScore : ℚ) : ℤ) : ℚ) ∧
        (r.isAnomaly = true ↔
          70 < fuse (a : ℚ) 70 (r.classifierScore : ℚ)) := by
  intro lib s t uid hist p errFn hp havg hamt hhour hmerch hcat hm hthr
  have hbeh : BehavioralProfiler.analyzeTransaction s.profiles uid t = 70 := by
    have hgt : jsGtNum (absAmount t) (p.averageAmount.mulC 2) = true := by
      rw [havg, hamt]
      simp only [JSNumber.mulC, jsGtNum, decide_eq_true_eq]
      norm_num
    simp [BehavioralProfiler.analyzeTransaction, hp, behavioralRiskScore,
      behavioralBaseScore, hhour, hmerch, hcat, hgt]
  obtain ⟨r, s', a, hrun, _, hA, hB, _, hS, hI⟩ :=
    analyzeTransaction_ok lib s t uid hist errFn hm hthr
  rw [hbeh] at hB
  refine ⟨r, s', a, hrun, hB, hA, ?_, ?_⟩
  · rw [hS, hB]
    norm_num
  · rw [hI, hB]
    simp

/-- Witness for the amended C3 at the concrete scenario state. -/
theorem c3_scenario_witness :
    ∃ (r : Assessment) (s' : FraudDetectionService) (a : ℤ),
      FraudDetectionService.analyzeTransaction constLib scenarioService techTx
        1 history10 = .ok (r, s') ∧
      r.behavioralScore = 70 ∧
      r.anomalyScore = .num (a : ℚ) ∧
      r.suspiciousScore =
        .num ((fuse (a : ℚ) 70 (r.classifierScore : ℚ) : ℤ) : ℚ) ∧
      (r.isAnomaly = true ↔ 70 < fuse (a : ℚ) 70 (r.classifierScore : ℚ)) :=
  c3_scenario constLib scenarioService techTx 1 history10
    (buildProfile history10) (fun _ => 0) rfl (by with_unfolding_all rfl)
    (by with_unfolding_all rfl) (by decide) (by decide) (by decide) rfl
    (by norm_num [scenarioService])

/-- Counterexample to C4: for a zero-amount transaction with no history, the
merchant ratio is `0 / (0 || 0) = 0 / 0 = NaN` — neither finite nor `1.0`. -/
theorem c4_counterexample :
    (extractTransactionFeatures zeroTx []).amountVsMerchantAvg = .nan ∧
    (extractTransactionFeatures zeroTx []).amountVsMerchantAvg ≠ .num 1 := by
  have h : (extractTransactionFeatures zeroTx []).amountVsMerchantAvg = .nan := by
    with_unfolding_all rfl
  refine ⟨h, ?_⟩
  rw [h]
  exact fun hc => JSNumber.noConfusion hc

/-- Claim C4, amended: for every transaction with nonzero amount,
`amountVsMerchantAvg` and `amountVsCategoryAvg` are finite, and equal exactly
`1.0` when the history contains no prior transaction for the transaction's
merchant (respectively category); for a zero-amount transaction with no (or
zero-average) merchant/category history the ratio is `NaN` (`0/0`). -/
theorem c4_ratio_fallback :
    ∀ (t : Transaction) (hist : List Transaction), absAmount t ≠ 0 →
      (∃ q, (extractTransactionFeatures t hist).amountVsMerchantAvg = .num q) ∧
      (∃ q, (extractTransactionFeatures t hist).amountVsCategoryAvg = .num q) ∧
      (hist.filter (fun ht => ht.merchant = t.merchant) = [] →
        (extractTransactionFeatures t hist).amountVsMerchantAvg = .num 1) ∧
      (hist.filter (fun ht => ht.category = t.category) = [] →
        (extractTransactionFeatures t hist).amountVsCategoryAvg = .num 1) := by
  intro t hist hamt
  simp only [extractTransactionFeatures]
  refine ⟨(ratio_feature _ _ hamt).1, (ratio_feature _ _ hamt).1, ?_, ?_⟩
  · intro hM
    refine (ratio_feature (absAmount t) _ hamt).2 ?_
    rw [hM]
    rfl
  · intro hM
    refine (ratio_feature (absAmount t) _ hamt).2 ?_
    rw [hM]
    rfl

/-- Witness for the amended C4 at a concrete nonzero-amount transaction with
empty history. -/
theorem c4_ratio_fallback_witness :
    (∃ q, (extractTransactionFeatures smallTx []).amountVsMerchantAvg = .num q) ∧
    (∃ q, (extractTransactionFeatures smallTx []).amountVsCategoryAvg = .num q) ∧
    (([] : List Transaction).filter (fun ht => ht.merchant = smallTx.merchant) = [] →
      (extractTransactionFeatures smallTx []).amountVsMerchantAvg = .num 1) ∧
    (([] : List Transaction).filter (fun ht => ht.category = smallTx.category) = [] →
      (extractTransactionFeatures smallTx []).amountVsCategoryAvg = .num 1) :=
  c4_ratio_fallback smallTx [] (by norm_num [absAmount, smallTx])

/-- Counterexample to C5: `AnomalyDetector.train` on the empty list fails
with the runtime `TypeError` of indexing the first row of the empty feature
matrix, not with a `DegenerateTrainingSetError` (which the code never
defines or throws). -/
theorem c5_counterexample :
    AnomalyDetector.train constLib AnomalyDetector.init [] =
      .error .typeErrorUndefined ∧
    AnomalyDetector.train constLib AnomalyDetector.init [] ≠
      .error .degenerateTrainingSet := by
  refine ⟨rfl, ?_⟩
  intro h
  rw [show AnomalyDetector.train constLib AnomalyDetector.init [] =
    .error .typeErrorUndefined from rfl] at h
  exact absurd (Except.error.inj h) (by decide)

/-- Claim C5, amended: `RandomForestClassifier.train` on an empty list is a
no-op (and a fresh classifier still predicts `0` afterwards), while
`AnomalyDetector.train` on an empty list fails — but with an unnamed runtime
`TypeError` from `featureMatrix[0].length`, not a
`DegenerateTrainingSetError`. -/
theorem c5_empty_training :
    (∀ (lib : MLLib) (c : RandomForestClassifier) (labels : List Bool),
      RandomForestClassifier.train lib c [] labels = c) ∧
    (∀ (lib : MLLib) (uid : ℕ) (labels : List Bool) (t : Transaction)
       (hist : List Transaction),
      (RandomForestClassifier.train lib (RandomForestClassifier.mk none uid)
        [] labels).predict lib t hist = 0) ∧
    (∀ (lib : MLLib) (d : AnomalyDetector),
      AnomalyDetector.train lib d [] = .error .typeErrorUndefined) :=
  ⟨fun _ _ _ => rfl, fun _ _ _ _ _ => rfl, fun _ _ => rfl⟩

/-- Claim C6: both `AnomalyDetector` variants raise the
`Model not trained` error on `detectAnomaly` for every input when no model
has been trained; neither silently returns a zero score. -/
theorem c6_untrained_detect :
    (∀ (thr : ℚ) (t : Transaction) (hist : List Transaction),
      (AnomalyDetector.mk none thr).detectAnomaly t hist =
        .error .modelNotTrained) ∧
    (∀ (t : Transaction) (hist : List Transaction),
      (AnomalyDetectorIF.mk none).detectAnomaly t hist =
        .error .modelNotTrained) :=
  ⟨fun _ _ _ => rfl, fun _ _ => rfl⟩

/-- Claim C7: the `+25` unusual-amount penalty uses a strict comparison: at
an amount exactly twice the profile's average the penalty is not applied
(the score is the three base penalties, capped), while any amount strictly
greater than twice the average receives it. -/
theorem c7_amount_boundary :
    ∀ (profiles : ℕ → Option BehavioralProfile) (uid : ℕ) (t : Transaction)
      (p : BehavioralProfile) (a : ℚ),
      profiles uid = some p → p.averageAmount = .num a →
      ((absAmount t = 2 * a →
        BehavioralProfiler.analyzeTransaction profiles uid t =
          min (behavioralBaseScore p t) 100) ∧
       (2 * a < absAmount t →
        BehavioralProfiler.analyzeTransaction profiles uid t =
          min (behavioralBaseScore p t + 25) 100)) := by
  intro profiles uid t p a hp ha
  constructor
  · intro heq
    have hcond : jsGtNum (absAmount t) (p.averageAmount.mulC 2) = false := by
      rw [ha]
      simp only [JSNumber.mulC, jsGtNum, heq, decide_eq_false_iff_not]
      rw [mul_comm]
      exact lt_irrefl _
    simp [BehavioralProfiler.analyzeTransaction, hp, behavioralRiskScore,
      hcond]
  · intro hlt
    have hcond : jsGtNum (absAmount t) (p.averageAmount.mulC 2) = true := by
      rw [ha]
      simp only [JSNumber.mulC, jsGtNum, decide_eq_true_eq]
      rw [mul_comm]
      exact hlt
    simp [BehavioralProfiler.analyzeTransaction, hp, behavioralRiskScore,
      hcond]

/-- Witness for C7: with the scenario profile (average $50), a $100
transaction (exactly 2x) gets no amount penalty and a $100.50 transaction
(2.01x) gets the `+25`. -/
theorem c7_amount_boundary_witness :
    BehavioralProfiler.analyzeTransaction scenarioService.profiles 1 smallTx =
      min (behavioralBaseScore (buildProfile history10) smallTx) 100 ∧
    BehavioralProfiler.analyzeTransaction scenarioService.profiles 1
        boundaryTx =
      min (behavioralBaseScore (buildProfile history10) boundaryTx + 25) 100 :=
  ⟨(c7_amount_boundary scenarioService.profiles 1 smallTx
      (buildProfile history10) 50 rfl (by with_unfolding_all rfl)).1
      (by with_unfolding_all rfl),
   (c7_amount_boundary scenarioService.profiles 1 boundaryTx
      (buildProfile history10) 50 rfl (by with_unfolding_all rfl)).2
      (by rw [show absAmount boundaryTx = 201 / 2 from by with_unfolding_all rfl]
          norm_num)⟩

/-- Claim C8: cold start — `BehavioralProfiler.analyzeTransaction` returns
exactly `0` for a holder with no profile (no error is raised), and
`RandomForestClassifier.predict` returns exactly `0` when no model has been
trained. -/
theorem c8_cold_start :
    (∀ (profiles : ℕ → Option BehavioralProfile) (uid : ℕ) (t : Transaction),
      profiles uid = none →
      BehavioralProfiler.analyzeTransaction profiles uid t = 0) ∧
    (∀ (lib : MLLib) (uid : ℕ) (t : Transaction) (hist : List Transaction),
      (RandomForestClassifier.mk none uid).predict lib t hist = 0) := by
  constructor
  · intro profiles uid t h
    simp [BehavioralProfiler.analyzeTransaction, h]
  · intro lib uid t hist
    rfl

/-- Witness for C8 at a concrete profile-less state. -/
theorem c8_cold_start_witness :
    BehavioralProfiler.analyzeTransaction (fun _ => none) 1 smallTx = 0 ∧
    (RandomForestClassifier.mk none 1).predict constLib smallTx [] = 0 :=
  ⟨c8_cold_start.1 (fun _ => none) 1 smallTx rfl,
   c8_cold_start.2 constLib 1 smallTx []⟩

/-- Claim C9: `updateModels` leaves the global anomaly detector unchanged,
replaces only the given holder's behavioral profile (with the profile built
from the history plus the new transaction), retrains the holder's classifier
only when one already exists, and leaves every other holder's profile and
classifier untouched. -/
theorem c9_update_frame :
    ∀ (lib : MLLib) (s : FraudDetectionService) (t : Transaction) (uid : ℕ)
      (fraud : Bool) (hist : List Transaction),
      (s.updateModels lib t uid fraud hist).anomalyDetector =
        s.anomalyDetector ∧
      (s.updateModels lib t uid fraud hist).profiles uid =
        some (buildProfile (hist ++ [t])) ∧
      (∀ u : ℕ, u ≠ uid →
        (s.updateModels lib t uid fraud hist).profiles u = s.profiles u) ∧
      (∀ u : ℕ, u ≠ uid →
        (s.updateModels lib t uid fraud hist).userClassifiers u =
          s.userClassifiers u) ∧
      (∀ c : RandomForestClassifier, s.userClassifiers uid = some c →
        (s.updateModels lib t uid fraud hist).userClassifiers uid =
          some (c.updateModel lib t fraud hist)) ∧
      (s.userClassifiers uid = none →
        (s.updateModels lib t uid fraud hist).userClassifiers uid =
          s.userClassifiers uid) := by
  intro lib s t uid fraud hist
  cases hcl : s.userClassifiers uid with
  | some c =>
    have hupd : s.updateModels lib t uid fraud hist =
        { s with
          profiles := updateProfile s.profiles uid (hist ++ [t])
          userClassifiers := fun u =>
            if u = uid then some (c.updateModel lib t fraud hist)
            else s.userClassifiers u } := by
      simp only [FraudDetectionService.updateModels, hcl]
    rw [hupd]
    refine ⟨rfl, ?_, ?_, ?_, ?_, ?_⟩
    · simp [updateProfile]
    · intro u hu
      simp [updateProfile, hu]
    · intro u hu
      simp [hu]
    · intro c' hc'
      injection hc' with hc'
      subst hc'
      simp
    · intro h
      exact Option.noConfusion h
  | none =>
    have hupd : s.updateModels lib t uid fraud hist =
        { s with profiles := updateProfile s.profiles uid (hist ++ [t]) } := by
      simp only [FraudDetectionService.updateModels, hcl]
    rw [hupd]
    refine ⟨rfl, ?_, ?_, fun u _ => rfl, ?_, fun _ => hcl⟩
    · simp [updateProfile]
    · intro u hu
      simp [updateProfile, hu]
    · intro c' hc'
      exact Option.noConfusion hc'

/-- Witness for C9 at the concrete scenario state, with holder 1 updated and
holder 2 observed unchanged. -/
theorem c9_update_frame_witness :
    (FraudDetectionService.updateModels constLib scenarioService techTx 1
      true history10).anomalyDetector = scenarioService.anomalyDetector ∧
    (FraudDetectionService.updateModels constLib scenarioService techTx 1
      true history10).profiles 2 = scenarioService.profiles 2 ∧
    (FraudDetectionService.updateModels constLib scenarioService techTx 1
      true history10).userClassifiers 1 = scenarioService.userClassifiers 1 :=
  ⟨(c9_update_frame constLib scenarioService techTx 1 true history10).1,
   (c9_update_frame constLib scenarioService techTx 1 true history10).2.2.1 2
     (by decide),
   (c9_update_frame constLib scenarioService techTx 1 true
     history10).2.2.2.2.2 rfl⟩

/-- Claim C10: for a holder with a profile, the behavioral score is a sum of
a subset of the penalties `{20, 15, 10, 25}`, hence at most `70`; the cap at
`100` is never attained (the `min` is the identity), so a behavioral score
above `70` is impossible. -/
theorem c10_penalty_sum :
    ∀ (profiles : ℕ → Option BehavioralProfile) (uid : ℕ) (t : Transaction)
      (p : BehavioralProfile), profiles uid = some p →
      (∃ b1 b2 b3 b4 : Bool,
        BehavioralProfiler.analyzeTransaction profiles uid t =
          (if b1 then 20 else 0) + (if b2 then 15 else 0) +
          (if b3 then 10 else 0) + (if b4 then 25 else 0)) ∧
      BehavioralProfiler.analyzeTransaction profiles uid t ≤ 70 ∧
      min (behavioralRiskScore p t) 100 = behavioralRiskScore p t := by
  intro profiles uid t p hp
  have hle := behavioralRiskScore_le p t
  have hmin : min (behavioralRiskScore p t) 100 = behavioralRiskScore p t :=
    min_eq_left (by omega)
  have hana : BehavioralProfiler.analyzeTransaction profiles uid t =
      behavioralRiskScore p t := by
    simp [BehavioralProfiler.analyzeTransaction, hp, hmin]
  refine ⟨?_, hana ▸ hle, hmin⟩
  refine ⟨!decide (getHours t.transactionDate ∈ p.typicalDayHours),
    !decide (t.merchant ∈ p.typicalMerchants),
    !decide (t.category ∈ p.typicalCategories),
    jsGtNum (absAmount t) (p.averageAmount.mulC 2), ?_⟩
  rw [hana]
  unfold behavioralRiskScore behavioralBaseScore
  by_cases h1 : getHours t.transactionDate ∈ p.typicalDayHours <;>
    by_cases h2 : t.merchant ∈ p.typicalMerchants <;>
    by_cases h3 : t.category ∈ p.typicalCategories <;>
    cases h4 : jsGtNum (absAmount t) (p.averageAmount.mulC 2) <;>
    simp [h1, h2, h3, h4]

/-- Witness for C10 at the concrete scenario profile. -/
theorem c10_penalty_sum_witness :
    (∃ b1 b2 b3 b4 : Bool,
      BehavioralProfiler.analyzeTransaction scenarioService.profiles 1 techTx =
        (if b1 then 20 else 0) + (if b2 then 15 else 0) +
        (if b3 then 10 else 0) + (if b4 then 25 else 0)) ∧
    BehavioralProfiler.analyzeTransaction scenarioService.profiles 1 techTx
      ≤ 70 ∧
    min (behavioralRiskScore (buildProfile history10) techTx) 100 =
      behavioralRiskScore (buildProfile history10) techTx :=
  c10_penalty_sum scenarioService.profiles 1 techTx (buildProfile history10)
    rfl

end FinShield
